import Mathlib

/-!
Verification of the Blockly CPP code generator (src/generators/cpp.js and
the per-block rule tables) against its natural-language specification.

The JavaScript emitter is shallowly embedded: per-block rule functions
become Lean functions; the opaque child text returned by the external
driver's valueToCode is passed in as an `Option String` parameter
(`none` models an unconnected slot, matching the JS `valueToCode(...) || default`
idiom); precedence values are rationals exactly as in the source
(ORDER_SCOPE is 0.1); JS `throw` becomes `Except.error`; the mutable
generator state (name database, helper registry, definitions_ map) is
threaded explicitly.
-/

namespace CPP

/-! ### Order of operation constants (src/generators/cpp.js lines 57-75) -/

def ORDER_ATOMIC : Rat := 0
def ORDER_SCOPE : Rat := 1/10
def ORDER_UNARY_POST : Rat := 1
def ORDER_UNARY_PRE : Rat := 2
def ORDER_PTR_TO_MEM : Rat := 3
def ORDER_MULTIPLICATIVE : Rat := 4
def ORDER_ADDITIVE : Rat := 5
def ORDER_SHIFT : Rat := 6
def ORDER_RELATIONAL : Rat := 7
def ORDER_EQUALITY : Rat := 8
def ORDER_BITWISE_AND : Rat := 9
def ORDER_BITWISE_XOR : Rat := 10
def ORDER_BITWISE_OR : Rat := 11
def ORDER_LOGICAL_AND : Rat := 12
def ORDER_LOGICAL_OR : Rat := 13
def ORDER_CONDITIONAL : Rat := 14
def ORDER_ASSIGNMENT : Rat := 14
def ORDER_COMMA : Rat := 15
def ORDER_NONE : Rat := 99

/-! ### JavaScript string utilities used by the generator -/

/-- ASCII whitespace, as matched by the regex class \s on the inputs
that occur here. -/
def isWs (c : Char) : Bool :=
  c = ' ' || c = '\t' || c = '\n' || c = '\x0d' || c = '\x0b' || c = '\x0c'

/-- A \w word character: [A-Za-z0-9_]. -/
def isWordChar (c : Char) : Bool :=
  c.isAlphanum || c = '_'

/-- The test `s.match(/^\w+$/)`: a nonempty bare identifier or number
made only of word characters. -/
def isBareWord (s : String) : Bool :=
  !s.data.isEmpty && s.data.all isWordChar

/-- Blockly.utils.string.isNumber: the regex
^\s*-?\d+(\.\d+)?\s*$  tested on the string. -/
def isNumberStr (s : String) : Bool :=
  let l1 := s.data.dropWhile isWs
  let l2 := match l1 with
    | '-' :: r => r
    | _ => l1
  let intPart := l2.takeWhile Char.isDigit
  let r3 := l2.dropWhile Char.isDigit
  if intPart.isEmpty then false
  else
    match r3 with
    | '.' :: r =>
        let fracPart := r.takeWhile Char.isDigit
        let r5 := r.dropWhile Char.isDigit
        !fracPart.isEmpty && (r5.dropWhile isWs).isEmpty
    | _ => (r3.dropWhile isWs).isEmpty

/-- JS parseInt(s, 10): skip leading whitespace, optional sign, then the
maximal run of decimal digits.  (Only applied to strings accepted by
isNumberStr, which always carry at least one digit; on digit-free input
JS would give NaN, modelled here as 0.) -/
def parseIntJS (s : String) : Int :=
  let l := s.data.dropWhile isWs
  let p : Bool × List Char := match l with
    | '-' :: r => (true, r)
    | '+' :: r => (false, r)
    | _ => (false, l)
  let ds := p.2.takeWhile Char.isDigit
  let n : Nat := ds.foldl (fun a c => a * 10 + (c.toNat - 48)) 0
  if p.1 then -(n : Int) else (n : Int)

/-- Decimal digit to its character. -/
def digitChar (d : Nat) : Char := Char.ofNat (48 + d)

/-- Little-endian decimal digits of n, computed with explicit fuel so
that the kernel can evaluate it.  With fuel ≥ n this agrees with
Nat.digits 10 n (proved below). -/
def natToDigitsRev : Nat → Nat → List Nat
  | 0, _ => []
  | fuel + 1, n => if n = 0 then [] else (n % 10) :: natToDigitsRev fuel (n / 10)

/-- Decimal rendering of a natural number, as JS String(n) renders a
nonnegative integer. -/
def natRepr (n : Nat) : String :=
  if n = 0 then "0" else ⟨((natToDigitsRev n n).reverse.map digitChar)⟩

/-- Decimal rendering of an integer, as JS String(i). -/
def intRepr (i : Int) : String :=
  if i < 0 then "-" ++ natRepr i.natAbs else natRepr i.toNat

/-! ### CPP.getAdjusted (src/generators/cpp.js lines 248-300) -/

/-- The effective delta after the one-based-indexing decrement
(lines 250-254). -/
def effDelta (oneBased : Bool) (optDelta : Option Int) : Int :=
  if oneBased then optDelta.getD 0 - 1 else optDelta.getD 0

/-- The effective required order: `opt_order || this.ORDER_NONE`
(line 251).  JS `||` also replaces a passed 0 (the falsy
ORDER_ATOMIC) with ORDER_NONE. -/
def effOrder (optOrder : Option Rat) : Rat :=
  match optOrder with
  | none => ORDER_NONE
  | some o => if o = 0 then ORDER_NONE else o

/-- The (outerOrder, innerOrder) pair computed at lines 257-268:
additive for a delta-adjusted expression, unary-prefix for a negated
one, otherwise the caller-specified order with innerOrder left
undefined (`none`). -/
def adjustedOrders (delta : Int) (negate : Bool) (order : Rat) : Rat × Option Rat :=
  if delta ≠ 0 then (ORDER_ADDITIVE, some ORDER_ADDITIVE)
  else if negate then (ORDER_UNARY_PRE, some ORDER_UNARY_PRE)
  else (order, none)

/-- The dynamic-index text built at lines 280-292, before the final
parenthesization decision: append " + delta" or " - (-delta)", then
apply negation. -/
def dynAdjusted (at0 : String) (delta : Int) (negate : Bool) : String :=
  let at1 :=
    if delta > 0 then at0 ++ " + " ++ natRepr delta.toNat
    else if delta < 0 then at0 ++ " - " ++ natRepr (-delta).toNat
    else at0
  if negate then
    (if delta ≠ 0 then "-(" ++ at1 ++ ")" else "-" ++ at1)
  else at1

/-- CPP.getAdjusted.  `slotCode` is the text the external
valueToCode returned for the AT input (`none` when unconnected, in
which case the default index literal is used).  Returns a JS
number (`Sum.inl`) when the index was a literal adjusted by constant
folding, else the built expression text (`Sum.inr`). -/
def getAdjusted (oneBased : Bool) (slotCode : Option String) (optDelta : Option Int)
    (negate : Bool) (optOrder : Option Rat) : Int ⊕ String :=
  let delta := effDelta oneBased optDelta
  let order := effOrder optOrder
  let defaultAt := if oneBased then "1" else "0"
  let oi := adjustedOrders delta negate order
  let at0 := slotCode.getD defaultAt
  if isNumberStr at0 then
    let n := parseIntJS at0 + delta
    Sum.inl (if negate then -n else n)
  else
    let at2 := dynAdjusted at0 delta negate
    match oi.2 with
    | none => Sum.inr at2
    | some innerQ =>
        if innerQ.floor ≠ 0 ∧ order.floor ≥ innerQ.floor then
          Sum.inr ("(" ++ at2 ++ ")")
        else Sum.inr at2

/-! ### CPP.quote_ (src/generators/cpp.js lines 172-179) -/

/-- JS s.replace(/c/g, repl) for a single-character pattern: every
occurrence of c is replaced by the character list repl. -/
def jsReplaceChar (c : Char) (repl : List Char) : List Char → List Char
  | [] => []
  | x :: xs => (if x = c then repl else [x]) ++ jsReplaceChar c repl xs

/-- CPP.quote_: escape backslash, newline, dollar and double quote
(in that order, each as a backslash followed by the character itself —
for a newline the replacement '\\\n' is a backslash followed by a
literal newline), then wrap in double quotes. -/
def quote_ (s : String) : String :=
  let l1 := jsReplaceChar '\\' ['\\', '\\'] s.data
  let l2 := jsReplaceChar '\n' ['\\', '\n'] l1
  let l3 := jsReplaceChar '$' ['\\', '$'] l2
  let l4 := jsReplaceChar '"' ['\\', '"'] l3
  ⟨'"' :: (l4 ++ ['"'])⟩

/-- Single-pass view of the four sequential replacements in quote_:
each of the four escaped characters becomes backslash-then-itself and
every other character is kept (proved equal to the composition below). -/
def escapeAll : List Char → List Char
  | [] => []
  | c :: cs =>
      (if c = '\\' ∨ c = '\n' ∨ c = '$' ∨ c = '"' then ['\\', c] else [c]) ++ escapeAll cs

/-- Modelled from the spec: the target language's own string-literal
decoding ("decoding the produced literal in the target language must
reproduce the original text exactly").  The target language of this
generator is C++, whose translation phase 2 deletes every
backslash-newline pair (line splicing) before the literal is read. -/
def spliceLines : List Char → List Char
  | '\\' :: '\n' :: rest => spliceLines rest
  | c :: rest => c :: spliceLines rest
  | [] => []

/-- Modelled from the spec: C++ simple-escape-sequence decoding for one
escaped character; unknown escapes (such as the conditionally-supported
dollar) yield the character itself, as common compilers do. -/
def escChar (c : Char) : Char :=
  match c with
  | 'n' => '\n'
  | 't' => '\t'
  | 'r' => '\x0d'
  | 'a' => '\x07'
  | 'b' => '\x08'
  | 'f' => '\x0c'
  | 'v' => '\x0b'
  | '0' => '\x00'
  | other => other

/-- Modelled from the spec: resolve backslash escapes left to right. -/
def unescapeChars : List Char → List Char
  | '\\' :: c :: rest => escChar c :: unescapeChars rest
  | c :: rest => c :: unescapeChars rest
  | [] => []

/-- Modelled from the spec: decode a double-quoted C++ string literal:
line splicing first, then strip the surrounding quotes, then resolve
the escape sequences. -/
def cppDecode (s : String) : String :=
  let l := spliceLines s.data
  let inner :=
    if l.head? = some '"' ∧ l.getLast? = some '"' ∧ 2 ≤ l.length then (l.drop 1).dropLast
    else l
  ⟨unescapeChars inner⟩

/-! ### Name database (Blockly.Names, an external collaborator of the
generator; modelled from the spec's name-table contract) -/

/-- Modelled from the spec: candidate number k that
Names.getDistinctName tries — the base name itself, then base2,
base3, and so on. -/
def candName (base : String) (k : Nat) : String :=
  if k = 0 then base else base ++ natRepr (k + 1)

/-- The first candidate index at or after k that is not in the
used-name list, searched with explicit fuel (fuel exceeding the list
length always suffices, proved below). -/
def findFreeAux (base : String) (used : List String) : Nat → Nat → Nat
  | 0, k => k
  | fuel + 1, k =>
      if candName base k ∈ used then findFreeAux base used fuel (k + 1) else k

/-- Modelled from the spec: Names.getDistinctName — return the first
candidate name not yet in use and record it as used. -/
def getDistinctName (base : String) (used : List String) : String × List String :=
  let k := findFreeAux base used (used.length + 1) 0
  let n := candName base k
  (n, n :: used)

/-- The generator's per-run mutable state: the name table, the
provideFunction_ helper-name registry, and the definitions_ map. -/
structure GenSt where
  used : List String
  helpers : List (String × String)
  defs : List (String × String)
deriving DecidableEq

/-- getDistinctName acting on the generator state. -/
def getDistinct (base : String) (st : GenSt) : String × GenSt :=
  let r := getDistinctName base st.used
  (r.1, ⟨r.2, st.helpers, st.defs⟩)

/-- JS `CPP.definitions_[key] = val`. -/
def setDef (key val : String) (st : GenSt) : GenSt :=
  ⟨st.used, st.helpers, (key, val) :: st.defs.filter (fun p => p.1 != key)⟩

/-- Modelled from the spec: provideFunction_ (defineHelperFunction) —
memoized by key; the first call registers the template instantiated
with a freshly chosen name and returns that name, later calls return
the same name without re-registering. -/
def provideFunction (key : String) (tmpl : String → String) (st : GenSt) :
    String × GenSt :=
  match st.helpers.lookup key with
  | some n => (n, st)
  | none =>
      let n := (getDistinctName key st.used).1
      (n, ⟨n :: st.used, (key, n) :: st.helpers, (key, tmpl n) :: st.defs⟩)

/-! ### Loop blocks (src/unnamed/part_000) -/

/-- The counting loop text emitted by controls_repeat_ext
(lines 38-39). -/
def repeatLoop (loopVar endVar branch : String) : String :=
  "for (int " ++ loopVar ++ " = 0; " ++ loopVar ++ " < " ++ endVar ++ "; " ++
    loopVar ++ "++) \x7b\n" ++ branch ++ "\x7d\n"

/-- controls_repeat_ext (lines 19-41).  `timesField` is the internal
TIMES number field when present (String(Number(...)) of it), else the
TIMES value slot text is used.  `branch` is the statementToCode result;
addLoopTrap is the identity here since no infinite-loop trap is
configured. -/
def controls_repeat_ext (timesField : Option Int) (timesSlot : Option String)
    (branch : String) (db : List String) : String × List String :=
  let repeats := match timesField with
    | some v => intRepr v
    | none => timesSlot.getD "0"
  let lv := getDistinctName "count" db
  if !(isBareWord repeats) && !(isNumberStr repeats) then
    let ev := getDistinctName "repeat_end" lv.2
    ("var " ++ ev.1 ++ " = " ++ repeats ++ ";\n" ++ repeatLoop lv.1 ev.1 branch, ev.2)
  else
    (repeatLoop lv.1 repeats branch, lv.2)

/-- controls_flow_statements (lines 133-161).  `xfix` is the prefix and
suffix injection text, empty when injection is disabled. -/
def controls_flow_statements (flow : String) (xfix : String) : Except String String :=
  if flow = "BREAK" then Except.ok (xfix ++ "break;\n")
  else if flow = "CONTINUE" then Except.ok (xfix ++ "continue;\n")
  else Except.error "Unknown flow statement."

/-! ### Logic blocks (src/generators/cpp/logic.js) -/

/-- The generator's statement indent. -/
def INDENT : String := "  "

/-- Modelled from the spec: the base generator's prefixLines — prefix
every line of the text, leaving a trailing final newline bare
(the regex replace of every newline not at the very end). -/
def prefixLinesChars (pre : List Char) : List Char → List Char
  | [] => []
  | ['\n'] => ['\n']
  | '\n' :: c :: rest => '\n' :: (pre ++ prefixLinesChars pre (c :: rest))
  | c :: rest => c :: prefixLinesChars pre rest

/-- Modelled from the spec: the base generator's prefixLines. -/
def prefixLines (text pre : String) : String :=
  pre ++ ⟨prefixLinesChars pre.data text.data⟩

/-- The if / else-if clause chain emitted by the do-while loop of
controls_if (lines 25-38): each clause is
"if (cond) {\n" ++ branch ++ "}", with "else " prepended from the
second clause on and nothing between a closing brace and the next
keyword. -/
def ifClauses (brAdj : String → String) : Bool → List (Option String × String) → String
  | _, [] => ""
  | isFirst, (c, b) :: rest =>
      (if isFirst then "" else "else ") ++ "if (" ++ c.getD "false" ++ ") \x7b\n" ++
        brAdj b ++ "\x7d" ++ ifClauses brAdj false rest

/-- controls_if (lines 17-51).  `injPre` / `injSuf` model the
injectId-resolved STATEMENT_PREFIX / STATEMENT_SUFFIX text (`none`
when injection is disabled); condition slots are `Option String`
(`none` = unconnected, defaulting to "false"); branch strings are the
statementToCode results. -/
def controls_if (injPre injSuf : Option String) (cond0 : Option String) (branch0 : String)
    (rest : List (Option String × String)) (hasElse : Bool) (elseBranch : String) : String :=
  let brAdj : String → String := fun b =>
    match injSuf with
    | some sfx => prefixLines sfx INDENT ++ b
    | none => b
  let start := injPre.getD ""
  let main := ifClauses brAdj true ((cond0, branch0) :: rest)
  let elsePart :=
    if hasElse || injSuf.isSome then " else \x7b\n" ++ brAdj elseBranch ++ "\x7d" else ""
  start ++ main ++ elsePart ++ "\n"

/-- The exact output text asserted by the spec sentence for a
two-branch conditional with an else branch (a newline before each else
keyword), written from the spec's words for comparison with the code's
actual output. -/
def specIfElseText (a b s0 s1 s2 : String) : String :=
  "if (" ++ a ++ ") \x7b\n" ++ s0 ++ "\x7d\nelse if (" ++ b ++ ") \x7b\n" ++ s1 ++
    "\x7d\nelse \x7b\n" ++ s2 ++ "\x7d\n"

/-! ### List blocks (src/unnamed/part_004) -/

/-- JS string concatenation applied to the string-or-number result of
getAdjusted. -/
def showAt : Int ⊕ String → String
  | Sum.inl n => intRepr n
  | Sum.inr s => s

/-- The result of one per-block rule: an (expression text, produced
order) pair or a statement string. -/
inductive GenResult where
  | expr (code : String) (ord : Rat)
  | stmt (code : String)
deriving DecidableEq

/-- The dart:math import definition registered by the list rules. -/
def dartMathDef : String := "import 'dart:math' as Math;"

/-- Helper template of lists_getIndex FROM_END GET (lines 115-120). -/
def listsGetFromEndTmpl : String → String := fun name =>
  "\ndynamic " ++ name ++ "(List my_list, num x) \x7b\n  x = my_list.length - x;\n" ++
    "  return my_list[x];\n\x7d\n"

/-- Helper template of lists_getIndex FROM_END GET_REMOVE
(lines 126-131). -/
def listsRemoveFromEndTmpl : String → String := fun name =>
  "\ndynamic " ++ name ++ "(List my_list, num x) \x7b\n  x = my_list.length - x;\n" ++
    "  return my_list.removeAt(x);\n\x7d\n"

/-- Helper template of lists_getIndex RANDOM GET (lines 200-205). -/
def listsGetRandomItemTmpl : String → String := fun name =>
  "\ndynamic " ++ name ++ "(List my_list) \x7b\n" ++
    "  int x = new Math.Random().nextInt(my_list.length);\n" ++
    "  return my_list[x];\n\x7d\n"

/-- Helper template of lists_getIndex RANDOM GET_REMOVE
(lines 210-215). -/
def listsRemoveRandomItemTmpl : String → String := fun name =>
  "\ndynamic " ++ name ++ "(List my_list) \x7b\n" ++
    "  int x = new Math.Random().nextInt(my_list.length);\n" ++
    "  return my_list.removeAt(x);\n\x7d\n"

/-- lists_getIndex (src/unnamed/part_004 lines 71-223).  Field values
MODE and WHERE default to GET and FROM_START (`||` in the source); the
VALUE and AT slots are the opaque texts valueToCode returned (`none`
when unconnected). -/
def lists_getIndex (oneBased : Bool) (modeF whereF : Option String)
    (valueSlot atSlot : Option String) (st : GenSt) : Except String (GenResult × GenSt) :=
  let mode := modeF.getD "GET"
  let wh := whereF.getD "FROM_START"
  let list := valueSlot.getD "[]"
  if ((wh = "RANDOM" ∧ mode = "REMOVE") ∨ wh = "FROM_END") ∧ ¬ (isBareWord list = true) then
    if wh = "RANDOM" then
      let st1 := setDef "import_dart_math" dartMathDef st
      let c1 := getDistinct "tmp_list" st1
      let cache := "List " ++ c1.1 ++ " = " ++ list ++ ";\n"
      let c2 := getDistinct "tmp_x" c1.2
      Except.ok (GenResult.stmt (cache ++ "int " ++ c2.1 ++ " = new Math.Random().nextInt(" ++
        c1.1 ++ ".length);\n" ++ c1.1 ++ ".removeAt(" ++ c2.1 ++ ");\n"), c2.2)
    else
      if mode = "REMOVE" then
        let at1 := showAt (getAdjusted oneBased atSlot (some 1) false (some ORDER_ADDITIVE))
        let c1 := getDistinct "tmp_list" st
        let cache := "List " ++ c1.1 ++ " = " ++ list ++ ";\n"
        Except.ok (GenResult.stmt (cache ++ c1.1 ++ ".removeAt(" ++ c1.1 ++ ".length - " ++
          at1 ++ ");\n"), c1.2)
      else if mode = "GET" then
        let at1 := showAt (getAdjusted oneBased atSlot (some 1) false none)
        let f := provideFunction "lists_get_from_end" listsGetFromEndTmpl st
        Except.ok (GenResult.expr (f.1 ++ "(" ++ list ++ ", " ++ at1 ++ ")")
          ORDER_UNARY_POST, f.2)
      else if mode = "GET_REMOVE" then
        let at1 := showAt (getAdjusted oneBased atSlot (some 1) false none)
        let f := provideFunction "lists_remove_from_end" listsRemoveFromEndTmpl st
        Except.ok (GenResult.expr (f.1 ++ "(" ++ list ++ ", " ++ at1 ++ ")")
          ORDER_UNARY_POST, f.2)
      else Except.error "Unhandled combination (lists_getIndex)."
  else
    if wh = "FIRST" then
      if mode = "GET" then
        Except.ok (GenResult.expr (list ++ ".first") ORDER_UNARY_POST, st)
      else if mode = "GET_REMOVE" then
        Except.ok (GenResult.expr (list ++ ".removeAt(0)") ORDER_UNARY_POST, st)
      else if mode = "REMOVE" then
        Except.ok (GenResult.stmt (list ++ ".removeAt(0);\n"), st)
      else Except.error "Unhandled combination (lists_getIndex)."
    else if wh = "LAST" then
      if mode = "GET" then
        Except.ok (GenResult.expr (list ++ ".last") ORDER_UNARY_POST, st)
      else if mode = "GET_REMOVE" then
        Except.ok (GenResult.expr (list ++ ".removeLast()") ORDER_UNARY_POST, st)
      else if mode = "REMOVE" then
        Except.ok (GenResult.stmt (list ++ ".removeLast();\n"), st)
      else Except.error "Unhandled combination (lists_getIndex)."
    else if wh = "FROM_START" then
      let at1 := showAt (getAdjusted oneBased atSlot none false none)
      if mode = "GET" then
        Except.ok (GenResult.expr (list ++ "[" ++ at1 ++ "]") ORDER_UNARY_POST, st)
      else if mode = "GET_REMOVE" then
        Except.ok (GenResult.expr (list ++ ".removeAt(" ++ at1 ++ ")") ORDER_UNARY_POST, st)
      else if mode = "REMOVE" then
        Except.ok (GenResult.stmt (list ++ ".removeAt(" ++ at1 ++ ");\n"), st)
      else Except.error "Unhandled combination (lists_getIndex)."
    else if wh = "FROM_END" then
      let at1 := showAt (getAdjusted oneBased atSlot (some 1) false (some ORDER_ADDITIVE))
      if mode = "GET" then
        Except.ok (GenResult.expr (list ++ "[" ++ list ++ ".length - " ++ at1 ++ "]")
          ORDER_UNARY_POST, st)
      else if mode = "GET_REMOVE" then
        Except.ok (GenResult.expr (list ++ ".removeAt(" ++ list ++ ".length - " ++ at1 ++ ")")
          ORDER_UNARY_POST, st)
      else if mode = "REMOVE" then
        Except.ok (GenResult.stmt (list ++ ".removeAt(" ++ list ++ ".length - " ++ at1 ++
          ");\n"), st)
      else Except.error "Unhandled combination (lists_getIndex)."
    else if wh = "RANDOM" then
      let st1 := setDef "import_dart_math" dartMathDef st
      if mode = "REMOVE" then
        let c2 := getDistinct "tmp_x" st1
        Except.ok (GenResult.stmt ("int " ++ c2.1 ++ " = new Math.Random().nextInt(" ++
          list ++ ".length);\n" ++ list ++ ".removeAt(" ++ c2.1 ++ ");\n"), c2.2)
      else if mode = "GET" then
        let f := provideFunction "lists_get_random_item" listsGetRandomItemTmpl st1
        Except.ok (GenResult.expr (f.1 ++ "(" ++ list ++ ")") ORDER_UNARY_POST, f.2)
      else if mode = "GET_REMOVE" then
        let f := provideFunction "lists_remove_random_item" listsRemoveRandomItemTmpl st1
        Except.ok (GenResult.expr (f.1 ++ "(" ++ list ++ ")") ORDER_UNARY_POST, f.2)
      else Except.error "Unhandled combination (lists_getIndex)."
    else Except.error "Unhandled combination (lists_getIndex)."

/-! ### Math blocks (src/unnamed/part_003) -/

/-- math_single (lines 95-175).  The NUM slot text is opaque; the
rule's valueToCode order choice (unary-prefix for NEG, multiplicative
for trig, none otherwise) only affects that opaque child text. -/
def math_single (op : String) (numSlot : Option String) (st : GenSt) :
    Except String ((String × Rat) × GenSt) :=
  if op = "NEG" then
    let arg0 := numSlot.getD "0"
    let arg := if arg0.data.head? = some '-' then " " ++ arg0 else arg0
    Except.ok (("-" ++ arg, ORDER_UNARY_PRE), st)
  else
    let st1 := setDef "include_cpp_cmath" "#include <cmath>" st
    let arg := numSlot.getD "0"
    if op = "ABS" then Except.ok (("abs(" ++ arg ++ ")", ORDER_UNARY_POST), st1)
    else if op = "ROOT" then Except.ok (("sqrt(" ++ arg ++ ")", ORDER_UNARY_POST), st1)
    else if op = "LN" then Except.ok (("log(" ++ arg ++ ")", ORDER_UNARY_POST), st1)
    else if op = "EXP" then Except.ok (("exp(" ++ arg ++ ")", ORDER_UNARY_POST), st1)
    else if op = "POW10" then Except.ok (("pow(10, " ++ arg ++ ")", ORDER_UNARY_POST), st1)
    else if op = "ROUND" then Except.ok (("round(" ++ arg ++ ")", ORDER_UNARY_POST), st1)
    else if op = "ROUNDUP" then Except.ok (("ceil(" ++ arg ++ ")", ORDER_UNARY_POST), st1)
    else if op = "ROUNDDOWN" then Except.ok (("floor(" ++ arg ++ ")", ORDER_UNARY_POST), st1)
    else if op = "SIN" then
      Except.ok (("sin(" ++ arg ++ " / 180 * M_PI)", ORDER_UNARY_POST), st1)
    else if op = "COS" then
      Except.ok (("cos(" ++ arg ++ " / 180 * M_PI)", ORDER_UNARY_POST), st1)
    else if op = "TAN" then
      Except.ok (("tan(" ++ arg ++ " / 180 * M_PI)", ORDER_UNARY_POST), st1)
    else if op = "LOG10" then
      Except.ok (("log(" ++ arg ++ ") / log(10)", ORDER_MULTIPLICATIVE), st1)
    else if op = "ASIN" then
      Except.ok (("asin(" ++ arg ++ ") / M_PI * 180", ORDER_MULTIPLICATIVE), st1)
    else if op = "ACOS" then
      Except.ok (("acos(" ++ arg ++ ") / M_PI * 180", ORDER_MULTIPLICATIVE), st1)
    else if op = "ATAN" then
      Except.ok (("atan(" ++ arg ++ ") / M_PI * 180", ORDER_MULTIPLICATIVE), st1)
    else Except.error ("Unknown math operator: " ++ op)

/-- The OPERATORS table of math_arithmetic (lines 72-78): operator text
and order, with POWER carrying no infix operator. -/
def OPERATORS (op : String) : Option (Option String × Rat) :=
  if op = "ADD" then some (some " + ", ORDER_ADDITIVE)
  else if op = "MINUS" then some (some " - ", ORDER_ADDITIVE)
  else if op = "MULTIPLY" then some (some " * ", ORDER_MULTIPLICATIVE)
  else if op = "DIVIDE" then some (some " / ", ORDER_MULTIPLICATIVE)
  else if op = "POWER" then some (none, ORDER_NONE)
  else none

/-- math_arithmetic (lines 70-93).  An unknown OP makes the JS code
destructure `undefined`, a TypeError. -/
def math_arithmetic (op : String) (aSlot bSlot : Option String) (st : GenSt) :
    Except String ((String × Rat) × GenSt) :=
  match OPERATORS op with
  | none => Except.error "TypeError: OPERATORS value is undefined"
  | some (opStr, ord) =>
      let a := aSlot.getD "0"
      let b := bSlot.getD "0"
      match opStr with
      | none =>
          let st1 := setDef "include_cpp_cmath" "#include <cmath>" st
          Except.ok (("pow(" ++ a ++ ", " ++ b ++ ")", ORDER_UNARY_POST), st1)
      | some o => Except.ok ((a ++ o ++ b, ord), st)

/-- The CONSTANTS table of math_constant (lines 179-186): the intended
option-to-(text, order) mapping. -/
def CONSTANTS (key : String) : Option (String × Rat) :=
  if key = "PI" then some ("M_PI", ORDER_ATOMIC)
  else if key = "E" then some ("M_E", ORDER_ATOMIC)
  else if key = "GOLDEN_RATIO" then some ("(1 + sqrt(5)) / 2", ORDER_MULTIPLICATIVE)
  else if key = "SQRT2" then some ("M_SQRT2", ORDER_ATOMIC)
  else if key = "SQRT1_2" then some ("M_SQRT1_2", ORDER_ATOMIC)
  else if key = "INFINITY" then some ("INFINITY", ORDER_ATOMIC)
  else none

/-- math_constant (src/unnamed/part_003 lines 177-189).  The source
returns CONSTANTS[constant], where the identifier `constant` is not
defined in the function or module scope and the block's own CONSTANT
field is never read.  `scope` models the free-variable environment the
function body is evaluated in (empty for this module); under strict
mode reading the unbound identifier throws a ReferenceError. -/
def math_constant (scope : List (String × String)) (constField : String) (st : GenSt) :
    Except String ((String × Rat) × GenSt) :=
  let st1 := setDef "include_cpp_cmath" "#include <cmath>" st
  match scope.lookup "constant" with
  | none => Except.error "ReferenceError: constant is not defined"
  | some v =>
      match CONSTANTS v with
      | some r => Except.ok (r, st1)
      | none => Except.error "TypeError: undefined constant tuple"

/-! ### CPP.finish (src/generators/cpp.js lines 129-154) -/

/-- The test `def.match(/^import\s/)` that splits definitions_ entries
into imports and other definitions. -/
def defIsImport (d : String) : Bool :=
  match d.data with
  | 'i' :: 'm' :: 'p' :: 'o' :: 'r' :: 't' :: c :: _ => isWs c
  | _ => false

/-- CPP.finish.  `baseFinish` models the prototype call to the external
base Generator's finish; `defs` is the definitions_ registry.  The
function wraps the code in an int main entry point, computes the
imports-and-definitions string allDefs from the registry, and returns
only the wrapped code. -/
def finish (baseFinish : String → String) (defs : List (String × String))
    (code : String) : String :=
  let code1 := if code = "" then code else prefixLines code INDENT
  let code2 := "int main() \x7b\n" ++ code1 ++ INDENT ++ "return 0;\n\x7d"
  let imports := (defs.map Prod.snd).filter defIsImport
  let definitions := (defs.map Prod.snd).filter (fun d => !(defIsImport d))
  let code3 := baseFinish code2
  let allDefs := String.intercalate "\n" imports ++ "\n\n" ++
    String.intercalate "\n\n" definitions
  code3

end CPP

/-! ## Theorems -/

/-- A parenthesized string differs from the unparenthesized one. -/
theorem paren_ne_self (t : String) : ("(" ++ t ++ ")") ≠ t := by
  intro h
  have h2 := congrArg String.length h
  simp only [String.length_append] at h2
  have e1 : "(".length = 1 := rfl
  have e2 : ")".length = 1 := rfl
  omega

example : CPP.isNumberStr " -12.5 " = true := by decide
example : CPP.isNumberStr "1." = false := by decide
example : CPP.isNumberStr "n" = false := by decide
example : CPP.isBareWord "5" = true := by decide
example : CPP.isBareWord "foo()" = false := by decide
example : CPP.parseIntJS " -12.5" = -12 := by decide
example : CPP.natRepr 120 = "120" := by decide
example : CPP.getAdjusted true (some "1") (some 0) false none = Sum.inl 0 := by decide
example : CPP.getAdjusted true (some "n") none false (some CPP.ORDER_ADDITIVE) =
    Sum.inr "(n - 1)" := by decide
example : CPP.getAdjusted false (some "n") (some 1) false (some CPP.ORDER_MULTIPLICATIVE) =
    Sum.inr "n + 1" := by decide

open CPP

/-- Claim C1, counterexample: the claim says the emitted child text is
parenthesized iff the produced order q is strictly greater than the
required order p, and that equal precedence never adds parentheses.
Here the caller requires ORDER_ADDITIVE and the one-based-adjusted
dynamic index produces ORDER_ADDITIVE (q = p), yet getAdjusted emits
the parenthesized text. -/
theorem C1_counterexample :
    getAdjusted true (some "n") none false (some ORDER_ADDITIVE) = Sum.inr "(n - 1)"
      ∧ ¬ (ORDER_ADDITIVE > ORDER_ADDITIVE) :=
  ⟨by decide, by decide⟩

/-- Claim C1, amended: for a connected dynamic (non-numeric) index
expression, getAdjusted parenthesizes the adjusted text exactly when
the floored produced order of the adjusted expression is nonzero and
the floored required order is greater than or equal to it (so equal
precedence does add parentheses, and the comparison direction is
required ≥ produced, not produced > required); when no adjustment
order is produced (no delta, no negation) the text is never
parenthesized by getAdjusted. -/
theorem C1_paren_iff_required_ge_produced (oneBased negate : Bool) (n : String)
    (optDelta : Option Int) (optOrder : Option Rat) (hn : isNumberStr n = false) :
    (∀ q : Rat,
        (adjustedOrders (effDelta oneBased optDelta) negate (effOrder optOrder)).2 = some q →
        (getAdjusted oneBased (some n) optDelta negate optOrder =
            Sum.inr ("(" ++ dynAdjusted n (effDelta oneBased optDelta) negate ++ ")") ↔
          (q.floor ≠ 0 ∧ (effOrder optOrder).floor ≥ q.floor)))
    ∧ ((adjustedOrders (effDelta oneBased optDelta) negate (effOrder optOrder)).2 = none →
        getAdjusted oneBased (some n) optDelta negate optOrder =
          Sum.inr (dynAdjusted n (effDelta oneBased optDelta) negate)) := by
  unfold getAdjusted
  simp only [Option.getD_some, hn, Bool.false_eq_true, if_false]
  constructor
  · intro q hq
    rw [hq]
    dsimp only
    split_ifs with hc
    · simp [hc]
    · simp only [hc, iff_false]
      intro h
      exact paren_ne_self _ (Sum.inr.inj h).symm
  · intro hq
    rw [hq]

/-- Witness for C1: at the concrete dynamic index "x + y" with one-based
indexing and required order ORDER_NONE, the amended condition holds and
the output is the parenthesized adjusted text. -/
theorem C1_witness :
    isNumberStr "x + y" = false ∧
    getAdjusted true (some "x + y") none false (some ORDER_NONE) =
      Sum.inr ("(" ++ dynAdjusted "x + y" (effDelta true none) false ++ ")") :=
  ⟨by decide,
    ((C1_paren_iff_required_ge_produced true false "x + y" none (some ORDER_NONE)
        (by decide)).1 ORDER_ADDITIVE (by decide)).mpr (by decide)⟩

/-- Helper: the dynamic index text for delta -1 without negation is
"n - 1". -/
theorem dynAdjusted_neg_one (n : String) : dynAdjusted n (-1) false = n ++ " - 1" := by
  have h1 : natRepr (-(-1:Int)).toNat = "1" := by decide
  unfold dynAdjusted
  norm_num [h1]
  rw [String.append_assoc]
  congr 1

/-- Claim C2, counterexample: the claim says the one-based dynamic index
text n - 1 is parenthesized only when the surrounding required
precedence is strictly weaker (numerically greater) than additive; at a
required order of exactly ORDER_ADDITIVE (not weaker) the code
nevertheless emits the parenthesized text. -/
theorem C2_counterexample :
    getAdjusted true (some "n") (some 0) false (some ORDER_ADDITIVE) = Sum.inr "(n - 1)"
      ∧ ¬ (ORDER_ADDITIVE > ORDER_ADDITIVE) :=
  ⟨by decide, by decide⟩

/-- Claim C2, amended: with one-based indexing and delta 0, a slot
holding the literal 1 constant-folds to the number 0 with no emitted
text; a dynamic expression n yields the text n - 1, parenthesized
exactly when the floored required order is greater than or equal to
additive (weaker than or equal, rather than the claimed strictly
weaker); and the output precedence is computed, not assumed: additive
for a delta-adjusted expression, unary-prefix for a negated one, the
caller-specified order for an unadjusted one. -/
theorem C2_index_adjustment :
    (∀ optOrder : Option Rat,
        getAdjusted true (some "1") (some 0) false optOrder = Sum.inl 0)
    ∧ (∀ (n : String) (order : Rat), isNumberStr n = false → order ≠ 0 →
        getAdjusted true (some n) (some 0) false (some order) =
          (if 5 ≤ order.floor then Sum.inr ("(" ++ (n ++ " - 1") ++ ")")
            else Sum.inr (n ++ " - 1")))
    ∧ (∀ (d : Int) (ng : Bool) (o : Rat), d ≠ 0 →
        adjustedOrders d ng o = (ORDER_ADDITIVE, some ORDER_ADDITIVE))
    ∧ (∀ o : Rat, adjustedOrders 0 true o = (ORDER_UNARY_PRE, some ORDER_UNARY_PRE))
    ∧ (∀ o : Rat, adjustedOrders 0 false o = (o, none)) := by
  refine ⟨fun _ => rfl, ?_, ?_, fun o => rfl, fun o => rfl⟩
  · intro n order hn h0
    unfold getAdjusted
    simp only [Option.getD_some, hn, Bool.false_eq_true, if_false]
    have he : effDelta true (some 0) = -1 := by decide
    rw [he]
    have ha : adjustedOrders (-1) false (effOrder (some order)) =
        (ORDER_ADDITIVE, some ORDER_ADDITIVE) := by
      unfold adjustedOrders
      norm_num
    rw [ha]
    dsimp only
    rw [dynAdjusted_neg_one]
    have hf : ORDER_ADDITIVE.floor = 5 := by decide
    rw [hf]
    have ho : effOrder (some order) = order := by
      unfold effOrder
      dsimp only
      rw [if_neg h0]
    rw [ho]
    by_cases h5 : (5:Int) ≤ order.floor
    · simp [h5]
    · simp [h5]
  · intro d ng o hd
    unfold adjustedOrders
    simp [hd]

/-- Witness for C2: the dynamic-expression conjunct at the concrete
input "x + y" with required order ORDER_NONE (floor 99 ≥ 5, so the
text is parenthesized), and the computed-order conjunct at delta -1. -/
theorem C2_witness :
    isNumberStr "x + y" = false ∧
    getAdjusted true (some "x + y") (some 0) false (some ORDER_NONE) =
      (if 5 ≤ ORDER_NONE.floor then Sum.inr ("(" ++ ("x + y" ++ " - 1") ++ ")")
        else Sum.inr ("x + y" ++ " - 1")) ∧
    adjustedOrders (-1) true ORDER_NONE = (ORDER_ADDITIVE, some ORDER_ADDITIVE) :=
  ⟨by decide, C2_index_adjustment.2.1 "x + y" ORDER_NONE (by decide) (by decide),
    C2_index_adjustment.2.2.1 (-1) true ORDER_NONE (by decide)⟩

/-- jsReplaceChar distributes over list append. -/
theorem jsReplaceChar_append (c : Char) (r : List Char) (a b : List Char) :
    jsReplaceChar c r (a ++ b) = jsReplaceChar c r a ++ jsReplaceChar c r b := by
  induction a with
  | nil => rfl
  | cons x xs ih =>
      simp only [List.cons_append, jsReplaceChar, List.append_eq, ih, List.append_assoc]

/-- The four sequential replacements of quote_ act as one single pass. -/
theorem escape_chain (l : List Char) :
    jsReplaceChar '"' ['\\', '"']
      (jsReplaceChar '$' ['\\', '$']
        (jsReplaceChar '\n' ['\\', '\n']
          (jsReplaceChar '\\' ['\\', '\\'] l))) = escapeAll l := by
  induction l with
  | nil => rfl
  | cons c cs ih =>
      simp only [jsReplaceChar, jsReplaceChar_append, escapeAll]
      rw [← ih]
      by_cases h1 : c = '\\'
      · subst h1; simp [jsReplaceChar]
      · by_cases h2 : c = '\n'
        · subst h2; simp [jsReplaceChar]
        · by_cases h3 : c = '$'
          · subst h3; simp [jsReplaceChar]
          · by_cases h4 : c = '"'
            · subst h4; simp [jsReplaceChar]
            · simp [jsReplaceChar, h1, h2, h3, h4]

/-- The character data of a quoted string: a double quote, the escaped
text, a double quote. -/
theorem quote_data (s : String) :
    (quote_ s).data = '"' :: (escapeAll s.data ++ ['"']) := by
  unfold quote_
  simp only [escape_chain]

/-- Line splicing leaves a newline-free character list unchanged. -/
theorem spliceLines_of_no_newline (l : List Char) (h : ∀ c ∈ l, c ≠ '\n') :
    spliceLines l = l := by
  induction l using spliceLines.induct with
  | case1 rest ih => exact absurd (h '\n' (by simp)) (by simp)
  | case2 c rest hne ih =>
      rw [spliceLines.eq_2]
      · rw [ih]
        intro x hx
        exact h x (List.mem_cons_of_mem _ hx)
      · exact hne
  | case3 => rfl

/-- Escaping a newline-free text produces a newline-free text. -/
theorem escapeAll_no_newline (l : List Char) (h : ∀ c ∈ l, c ≠ '\n') :
    ∀ c ∈ escapeAll l, c ≠ '\n' := by
  induction l with
  | nil => intro c hc; simp [escapeAll] at hc
  | cons x xs ih =>
      intro c hc
      have hx := h x (by simp)
      simp only [escapeAll, List.mem_append] at hc
      rcases hc with hc | hc
      · split_ifs at hc with hs
        · simp only [List.mem_cons, List.not_mem_nil, or_false] at hc
          rcases hc with rfl | rfl
          · decide
          · exact hx
        · simp only [List.mem_cons, List.not_mem_nil, or_false] at hc
          subst hc; exact hx
      · exact ih (fun y hy => h y (List.mem_cons_of_mem _ hy)) c hc

/-- Unescaping inverts escaping on newline-free text. -/
theorem unescape_escapeAll (l : List Char) (h : ∀ c ∈ l, c ≠ '\n') :
    unescapeChars (escapeAll l) = l := by
  induction l with
  | nil => rfl
  | cons c cs ih =>
      have hc := h c (by simp)
      have ihcs := ih (fun y hy => h y (List.mem_cons_of_mem _ hy))
      simp only [escapeAll]
      split_ifs with hs
      · rcases hs with hs | hs | hs | hs <;> subst hs <;>
          simp_all [unescapeChars, escChar]
      · have hne : c ≠ '\\' := fun hcc => hs (Or.inl hcc)
        rw [List.singleton_append,
          unescapeChars.eq_2 c (escapeAll cs) (fun _ _ hcc _ => hne hcc), ihcs]

/-- Claim C3 (code bug): quote_ escapes backslash, newline, dollar and
quote and wraps in double quotes, and decoding under the target
language's (C++) string-literal rules round-trips every newline-free
input; but for an input containing a newline the claim fails on the
code: the newline is emitted as backslash followed by a literal
newline, which C++ line splicing deletes, so the literal decodes to
the empty string instead of the original newline. -/
theorem C3_quote_roundtrip_newline_bug :
    (∀ s : String, (∀ c ∈ s.data, c ≠ '\n') → cppDecode (quote_ s) = s)
    ∧ quote_ "\n" = "\"\\\n\""
    ∧ cppDecode (quote_ "\n") = ""
    ∧ ("" : String) ≠ "\n" := by
  refine ⟨?_, by decide, by decide, by decide⟩
  intro s h
  unfold cppDecode
  rw [quote_data]
  rw [spliceLines_of_no_newline]
  · have hlast : ('"' :: (escapeAll s.data ++ ['"'])).getLast? = some '"' := by
      rw [← List.cons_append, List.getLast?_concat]
    have hlen : 2 ≤ ('"' :: (escapeAll s.data ++ ['"'])).length := by
      simp [List.length_append]
    dsimp only
    rw [if_pos ⟨rfl, hlast, hlen⟩]
    have hdrop : ('"' :: (escapeAll s.data ++ ['"'])).drop 1 = escapeAll s.data ++ ['"'] := rfl
    rw [hdrop, List.dropLast_concat, unescape_escapeAll s.data h]
  · intro c hc
    simp only [List.mem_cons, List.mem_append, List.not_mem_nil, or_false] at hc
    rcases hc with rfl | hc | rfl
    · decide
    · exact escapeAll_no_newline s.data h c hc
    · decide

/-- Witness for C3: the round-trip conjunct applied at the concrete
newline-free string containing a backslash, a quote and a dollar. -/
theorem C3_witness :
    (∀ c ∈ ("a\\b\"c$d" : String).data, c ≠ '\n') ∧
    cppDecode (quote_ "a\\b\"c$d") = "a\\b\"c$d" :=
  ⟨by decide, C3_quote_roundtrip_newline_bug.1 "a\\b\"c$d" (by decide)⟩

/-- The fuel-based digit extractor agrees with Nat.digits when the fuel
is at least the number. -/
theorem natToDigitsRev_eq_digits (fuel n : Nat) (h : n ≤ fuel) :
    natToDigitsRev fuel n = Nat.digits 10 n := by
  induction fuel generalizing n with
  | zero =>
      have hn : n = 0 := Nat.le_zero.mp h
      subst hn; simp [natToDigitsRev]
  | succ f ih =>
      by_cases hn : n = 0
      · subst hn; simp [natToDigitsRev]
      · rw [natToDigitsRev]
        simp only [hn, if_false]
        rw [Nat.digits_def' (by norm_num : (1:Nat) < 10) (Nat.pos_of_ne_zero hn)]
        have hlt : n / 10 < n := Nat.div_lt_self (Nat.pos_of_ne_zero hn) (by norm_num)
        rw [ih (n / 10) (by omega)]

/-- digitChar is injective on decimal digits. -/
theorem digitChar_inj (a b : Nat) (ha : a < 10) (hb : b < 10)
    (h : digitChar a = digitChar b) : a = b := by
  interval_cases a <;> interval_cases b <;> first | rfl | exact absurd h (by decide)

/-- Mapping digitChar over digit lists is injective. -/
theorem map_digitChar_inj (l1 l2 : List Nat) (h1 : ∀ x ∈ l1, x < 10)
    (h2 : ∀ x ∈ l2, x < 10) (h : l1.map digitChar = l2.map digitChar) : l1 = l2 := by
  induction l1 generalizing l2 with
  | nil =>
      cases l2 with
      | nil => rfl
      | cons b bs => simp at h
  | cons a as ih =>
      cases l2 with
      | nil => simp at h
      | cons b bs =>
          simp only [List.map_cons, List.cons.injEq] at h
          have hab := digitChar_inj a b (h1 a (by simp)) (h2 b (by simp)) h.1
          subst hab
          rw [ih bs (fun x hx => h1 x (List.mem_cons_of_mem _ hx))
            (fun x hx => h2 x (List.mem_cons_of_mem _ hx)) h.2]

/-- natRepr is injective on positive naturals. -/
theorem natRepr_inj_pos (m n : Nat) (hm : m ≠ 0) (hn : n ≠ 0)
    (h : natRepr m = natRepr n) : m = n := by
  unfold natRepr at h
  rw [if_neg hm, if_neg hn] at h
  injection h with h
  rw [natToDigitsRev_eq_digits m m le_rfl, natToDigitsRev_eq_digits n n le_rfl] at h
  have hrev := map_digitChar_inj _ _
    (fun x hx => Nat.digits_lt_base (by norm_num) (List.mem_reverse.mp hx))
    (fun x hx => Nat.digits_lt_base (by norm_num) (List.mem_reverse.mp hx)) h
  have := List.reverse_injective hrev
  exact Nat.digits_inj_iff.mp this

/-- natRepr of a positive natural is a nonempty string. -/
theorem natRepr_length_pos (n : Nat) (hn : n ≠ 0) : 0 < (natRepr n).length := by
  unfold natRepr
  rw [if_neg hn]
  show 0 < ((natToDigitsRev n n).reverse.map digitChar).length
  rw [natToDigitsRev_eq_digits n n le_rfl]
  simp only [List.length_map, List.length_reverse]
  have hne : Nat.digits 10 n ≠ [] := Nat.digits_ne_nil_iff_ne_zero.mpr hn
  cases hd : Nat.digits 10 n with
  | nil => exact absurd hd hne
  | cons x xs => simp

/-- The candidate names tried for a fixed base are pairwise distinct. -/
theorem candName_inj (base : String) : Function.Injective (candName base) := by
  intro j k h
  unfold candName at h
  by_cases hj : j = 0 <;> by_cases hk : k = 0
  · omega
  · rw [if_pos hj, if_neg hk] at h
    have h2 := congrArg String.length h
    rw [String.length_append] at h2
    have := natRepr_length_pos (k + 1) (by omega)
    omega
  · rw [if_neg hj, if_pos hk] at h
    have h2 := congrArg String.length h
    rw [String.length_append] at h2
    have := natRepr_length_pos (j + 1) (by omega)
    omega
  · rw [if_neg hj, if_neg hk] at h
    have h2 := congrArg String.data h
    rw [String.data_append, String.data_append] at h2
    have h3 := List.append_cancel_left h2
    have h4 : natRepr (j + 1) = natRepr (k + 1) := String.ext h3
    have := natRepr_inj_pos (j + 1) (k + 1) (by omega) (by omega) h4
    omega

/-- Among the first length+1 candidates, at least one is not in the
used-name list. -/
theorem exists_free_cand (base : String) (used : List String) :
    ∃ k, k ≤ used.length ∧ candName base k ∉ used := by
  by_contra hall
  push_neg at hall
  have hsub : (Finset.range (used.length + 1)).image (candName base) ⊆ used.toFinset := by
    intro x hx
    simp only [Finset.mem_image, Finset.mem_range] at hx
    obtain ⟨k, hk, rfl⟩ := hx
    exact List.mem_toFinset.mpr (hall k (by omega))
  have hcard : used.length + 1 ≤ used.toFinset.card := by
    calc used.length + 1 = (Finset.range (used.length + 1)).card := (Finset.card_range _).symm
      _ = ((Finset.range (used.length + 1)).image (candName base)).card :=
          (Finset.card_image_of_injective _ (candName_inj base)).symm
      _ ≤ used.toFinset.card := Finset.card_le_card hsub
  have := used.toFinset_card_le
  omega

/-- The bounded search returns a free candidate whenever one exists in
its range. -/
theorem findFreeAux_free (base : String) (used : List String) :
    ∀ (fuel k : Nat), (∃ j, k ≤ j ∧ j < k + fuel ∧ candName base j ∉ used) →
      candName base (findFreeAux base used fuel k) ∉ used := by
  intro fuel
  induction fuel with
  | zero =>
      rintro k ⟨j, hj1, hj2, hj3⟩
      omega
  | succ f ih =>
      rintro k ⟨j, hj1, hj2, hj3⟩
      simp only [findFreeAux]
      split_ifs with hmem
      · apply ih
        have hne : j ≠ k := fun hjk => hj3 (hjk ▸ hmem)
        exact ⟨j, by omega, by omega, hj3⟩
      · exact hmem

/-- getDistinctName always returns a name absent from the used list. -/
theorem getDistinctName_fresh (base : String) (used : List String) :
    (getDistinctName base used).1 ∉ used := by
  obtain ⟨j, hj1, hj2⟩ := exists_free_cand base used
  exact findFreeAux_free base used (used.length + 1) 0 ⟨j, Nat.zero_le _, by omega, hj2⟩

/-- Claim C4: when a rule needs a connected dynamic (non-bare-word,
non-numeric) expression more than once — the bound of
controls_repeat_ext, the list of lists_getIndex RANDOM REMOVE, or the
list of lists_getIndex FROM_END REMOVE — the emitted code first binds
the expression text to a freshly chosen variable exactly once and
every further use refers to that variable, so the expression text
occurs exactly once in the output; in the expression-context path
FROM_END GET the expression is instead passed exactly once as an
argument to the shared helper function. -/
theorem C4_single_evaluation :
    (∀ (repeats branch : String) (db : List String) (lv : String) (db1 : List String)
        (ev : String) (db2 : List String),
        isBareWord repeats = false → isNumberStr repeats = false →
        getDistinctName "count" db = (lv, db1) →
        getDistinctName "repeat_end" db1 = (ev, db2) →
        controls_repeat_ext none (some repeats) branch db =
          ("var " ++ ev ++ " = " ++ repeats ++ ";\n" ++ repeatLoop lv ev branch, db2))
    ∧ (∀ (listE : String) (atSlot : Option String) (oneBased : Bool) (st : GenSt)
        (lv : String) (st2 : GenSt) (xv : String) (st3 : GenSt),
        isBareWord listE = false →
        getDistinct "tmp_list" (setDef "import_dart_math" dartMathDef st) = (lv, st2) →
        getDistinct "tmp_x" st2 = (xv, st3) →
        lists_getIndex oneBased (some "REMOVE") (some "RANDOM") (some listE) atSlot st =
          Except.ok (GenResult.stmt ("List " ++ lv ++ " = " ++ listE ++ ";\n" ++
            "int " ++ xv ++ " = new Math.Random().nextInt(" ++ lv ++ ".length);\n" ++
            lv ++ ".removeAt(" ++ xv ++ ");\n"), st3))
    ∧ (∀ (listE : String) (atSlot : Option String) (oneBased : Bool) (st : GenSt)
        (lv : String) (st2 : GenSt),
        isBareWord listE = false →
        getDistinct "tmp_list" st = (lv, st2) →
        lists_getIndex oneBased (some "REMOVE") (some "FROM_END") (some listE) atSlot st =
          Except.ok (GenResult.stmt ("List " ++ lv ++ " = " ++ listE ++ ";\n" ++
            lv ++ ".removeAt(" ++ lv ++ ".length - " ++
            showAt (getAdjusted oneBased atSlot (some 1) false (some ORDER_ADDITIVE)) ++
            ");\n"), st2))
    ∧ (∀ (listE : String) (atSlot : Option String) (oneBased : Bool) (st : GenSt)
        (fn : String) (st2 : GenSt),
        isBareWord listE = false →
        provideFunction "lists_get_from_end" listsGetFromEndTmpl st = (fn, st2) →
        lists_getIndex oneBased (some "GET") (some "FROM_END") (some listE) atSlot st =
          Except.ok (GenResult.expr (fn ++ "(" ++ listE ++ ", " ++
            showAt (getAdjusted oneBased atSlot (some 1) false none) ++ ")")
            ORDER_UNARY_POST, st2)) := by
  refine ⟨?_, ?_, ?_, ?_⟩
  · intro repeats branch db lv db1 ev db2 hb hn h1 h2
    unfold controls_repeat_ext
    simp only [Option.getD_some, hb, hn, Bool.not_false, Bool.and_self, if_true, h1, h2]
  · intro listE atSlot oneBased st lv st2 xv st3 hb h1 h2
    unfold lists_getIndex
    simp only [Option.getD_some, hb]
    rw [if_pos]
    · simp only [if_true, if_false, h1, h2]
    · simp [hb]
  · intro listE atSlot oneBased st lv st2 hb h1
    unfold lists_getIndex
    simp only [Option.getD_some, hb]
    rw [if_pos]
    · simp only [h1]
      rw [if_neg (by decide), if_pos trivial]
    · simp [hb]
  · intro listE atSlot oneBased st fn st2 hb h1
    unfold lists_getIndex
    simp only [Option.getD_some, hb]
    rw [if_pos]
    · simp only [h1]
      rw [if_neg (by decide), if_neg (by decide), if_pos trivial]
    · simp [hb]

/-- Witness for C4: all three conjuncts at concrete dynamic
expressions and the empty generator state, where the fresh names are
count, repeat_end, tmp_list and tmp_x. -/
theorem C4_witness :
    controls_repeat_ext none (some "foo()") "b;\n" [] =
      ("var " ++ "repeat_end" ++ " = " ++ "foo()" ++ ";\n" ++
        repeatLoop "count" "repeat_end" "b;\n", ["repeat_end", "count"])
    ∧ lists_getIndex false (some "REMOVE") (some "RANDOM") (some "foo()") none ⟨[], [], []⟩ =
      Except.ok (GenResult.stmt ("List " ++ "tmp_list" ++ " = " ++ "foo()" ++ ";\n" ++
        "int " ++ "tmp_x" ++ " = new Math.Random().nextInt(" ++ "tmp_list" ++ ".length);\n" ++
        "tmp_list" ++ ".removeAt(" ++ "tmp_x" ++ ");\n"),
        ⟨["tmp_x", "tmp_list"], [], [("import_dart_math", dartMathDef)]⟩)
    ∧ lists_getIndex false (some "REMOVE") (some "FROM_END") (some "foo()") none ⟨[], [], []⟩ =
      Except.ok (GenResult.stmt ("List " ++ "tmp_list" ++ " = " ++ "foo()" ++ ";\n" ++
        "tmp_list" ++ ".removeAt(" ++ "tmp_list" ++ ".length - " ++
        showAt (getAdjusted false none (some 1) false (some ORDER_ADDITIVE)) ++ ");\n"),
        ⟨["tmp_list"], [], []⟩)
    ∧ lists_getIndex false (some "GET") (some "FROM_END") (some "foo()") none ⟨[], [], []⟩ =
      Except.ok (GenResult.expr ("lists_get_from_end" ++ "(" ++ "foo()" ++ ", " ++
        showAt (getAdjusted false none (some 1) false none) ++ ")") ORDER_UNARY_POST,
        ⟨["lists_get_from_end"], [("lists_get_from_end", "lists_get_from_end")],
          [("lists_get_from_end", listsGetFromEndTmpl "lists_get_from_end")]⟩) :=
  ⟨C4_single_evaluation.1 "foo()" "b;\n" [] "count" ["count"] "repeat_end"
      ["repeat_end", "count"] (by decide) (by decide) (by decide) (by decide),
    C4_single_evaluation.2.1 "foo()" none false ⟨[], [], []⟩ "tmp_list"
      ⟨["tmp_list"], [], [("import_dart_math", dartMathDef)]⟩ "tmp_x"
      ⟨["tmp_x", "tmp_list"], [], [("import_dart_math", dartMathDef)]⟩
      (by decide) (by decide) (by decide),
    C4_single_evaluation.2.2.1 "foo()" none false ⟨[], [], []⟩ "tmp_list"
      ⟨["tmp_list"], [], []⟩ (by decide) (by decide),
    C4_single_evaluation.2.2.2 "foo()" none false ⟨[], [], []⟩ "lists_get_from_end"
      ⟨["lists_get_from_end"], [("lists_get_from_end", "lists_get_from_end")],
        [("lists_get_from_end", listsGetFromEndTmpl "lists_get_from_end")]⟩
      (by decide) (by decide)⟩

/-- Claim C7: a repeat-count loop whose count input is the literal 5
emits a counting for-loop from 0 while strictly less than 5 with unit
increment, and the loop variable is freshly chosen, distinct from
every name already present in the active name table. -/
theorem C7_repeat_five_fresh_var (branch : String) (db : List String) :
    controls_repeat_ext none (some "5") branch db =
      (repeatLoop (getDistinctName "count" db).1 "5" branch, (getDistinctName "count" db).2)
    ∧ (getDistinctName "count" db).1 ∉ db := by
  constructor
  · have hc : (!(isBareWord "5") && !(isNumberStr "5")) = false := by decide
    simp only [controls_repeat_ext, Option.getD_some, hc, Bool.false_eq_true, if_false]
  · exact getDistinctName_fresh "count" db

/-- Two string segments that concatenate to a known literal can be
merged in a right-associated chain. -/
theorem append_merge (x y z : String) {R : String} (h : x ++ y = z) :
    x ++ (y ++ R) = z ++ R := by
  rw [← String.append_assoc, h]

/-- Claim C6, counterexample: with two conditions, an else branch and
injection disabled, the emitted text has no newline between a closing
brace and the following else keyword (and a single space before the
final else), so it differs from the claimed text
if (A) {\n...\n}\nelse if (B) {\n...\n}\nelse {\n...\n}\n at this
concrete input. -/
theorem C6_counterexample :
    controls_if none none (some "A") "  x;\n" [(some "B", "  y;\n")] true "  z;\n" =
      "if (A) \x7b\n  x;\n\x7delse if (B) \x7b\n  y;\n\x7d else \x7b\n  z;\n\x7d\n"
    ∧ controls_if none none (some "A") "  x;\n" [(some "B", "  y;\n")] true "  z;\n" ≠
      specIfElseText "A" "B" "  x;\n" "  y;\n" "  z;\n" :=
  ⟨by decide, by decide⟩

/-- Claim C6, amended: a controls_if with two conditions A and B and an
else branch, with prefix and suffix injection disabled, emits exactly
if (A) {\nS0}else if (B) {\nS1} else {\nS2}\n — each branch chain
appears exactly once, the else-if keyword directly follows the closing
brace, and a single space precedes the final else. -/
theorem C6_if_elseif_else_output (a b s0 s1 s2 : String) :
    controls_if none none (some a) s0 [(some b, s1)] true s2 =
      "if (" ++ a ++ ") \x7b\n" ++ s0 ++ "\x7delse if (" ++ b ++ ") \x7b\n" ++ s1 ++
        "\x7d else \x7b\n" ++ s2 ++ "\x7d\n" := by
  simp only [controls_if, ifClauses, Option.getD_some, Option.getD_none, Option.isSome_none,
    Bool.or_false, Bool.false_eq_true, if_true, if_false, String.empty_append,
    String.append_empty, String.append_assoc]
  rw [append_merge "\x7d" "else " "\x7delse " (by decide),
    append_merge "\x7delse " "if (" "\x7delse if (" (by decide),
    append_merge "\x7d" " else \x7b\n" "\x7d else \x7b\n" (by decide),
    show ("\x7d" : String) ++ "\n" = "\x7d\n" from by decide]

/-- Claim C5 (code bug): math_constant never reads the block's own
CONSTANT field — its result is the same whatever the field holds — and
evaluating it throws a ReferenceError because the table is indexed
with the unbound identifier `constant`; the intended table itself does
map PI to M_PI at atomic order. -/
theorem C5_math_constant_unbound :
    (∀ (f g : String) (st : GenSt), math_constant [] f st = math_constant [] g st)
    ∧ (∀ (f : String) (st : GenSt),
        math_constant [] f st = Except.error "ReferenceError: constant is not defined")
    ∧ CONSTANTS "PI" = some ("M_PI", ORDER_ATOMIC) :=
  ⟨fun _ _ _ => rfl, fun _ _ => rfl, by decide⟩

set_option maxHeartbeats 1600000 in
/-- Claim C8: an unknown OP in math_single, an unhandled MODE or WHERE
in lists_getIndex, and an unknown FLOW in controls_flow_statements all
throw an error naming the offending construct; no guessed output is
substituted. -/
theorem C8_unknown_option_throws :
    (∀ (op : String) (numSlot : Option String) (st : GenSt),
        op ∉ ["NEG", "ABS", "ROOT", "LN", "EXP", "POW10", "ROUND", "ROUNDUP", "ROUNDDOWN",
          "SIN", "COS", "TAN", "LOG10", "ASIN", "ACOS", "ATAN"] →
        math_single op numSlot st = Except.error ("Unknown math operator: " ++ op))
    ∧ (∀ (mode wh : String) (valueSlot atSlot : Option String) (oneBased : Bool) (st : GenSt),
        mode ∉ ["GET", "GET_REMOVE", "REMOVE"] ∨
          wh ∉ ["FIRST", "LAST", "FROM_START", "FROM_END", "RANDOM"] →
        lists_getIndex oneBased (some mode) (some wh) valueSlot atSlot st =
          Except.error "Unhandled combination (lists_getIndex).")
    ∧ (∀ (flow xfix : String), flow ∉ ["BREAK", "CONTINUE"] →
        controls_flow_statements flow xfix = Except.error "Unknown flow statement.") := by
  refine ⟨?_, ?_, ?_⟩
  · intro op numSlot st hop
    simp only [List.mem_cons, List.not_mem_nil, or_false, not_or] at hop
    obtain ⟨n1, n2, n3, n4, n5, n6, n7, n8, n9, n10, n11, n12, n13, n14, n15, n16⟩ := hop
    unfold math_single
    rw [if_neg n1, if_neg n2, if_neg n3, if_neg n4, if_neg n5, if_neg n6, if_neg n7,
      if_neg n8, if_neg n9, if_neg n10, if_neg n11, if_neg n12, if_neg n13, if_neg n14,
      if_neg n15, if_neg n16]
  · intro mode wh valueSlot atSlot oneBased st hbad
    unfold lists_getIndex
    simp only [Option.getD_some]
    split_ifs <;> first | rfl | (exfalso; simp_all)
  · intro flow xfix hflow
    simp only [List.mem_cons, List.not_mem_nil, or_false, not_or] at hflow
    unfold controls_flow_statements
    rw [if_neg hflow.1, if_neg hflow.2]

/-- Witness for C8: the three error paths at the concrete unknown
options FOO, SET/FIRST and FOO. -/
theorem C8_witness :
    math_single "FOO" none ⟨[], [], []⟩ = Except.error ("Unknown math operator: " ++ "FOO")
    ∧ lists_getIndex false (some "SET") (some "FIRST") none none ⟨[], [], []⟩ =
        Except.error "Unhandled combination (lists_getIndex)."
    ∧ controls_flow_statements "FOO" "" = Except.error "Unknown flow statement." :=
  ⟨C8_unknown_option_throws.1 "FOO" none ⟨[], [], []⟩ (by decide),
    C8_unknown_option_throws.2.1 "SET" "FIRST" none none false ⟨[], [], []⟩
      (Or.inl (by decide)),
    C8_unknown_option_throws.2.2 "FOO" "" (by decide)⟩

/-- Claim C9: an unconnected value slot is resolved to the calling
rule's explicit default — false for a controls_if condition, 0 for
math_arithmetic operands — and emission completes normally; no error
is raised. -/
theorem C9_unconnected_slot_defaults :
    (∀ b0 : String, controls_if none none none b0 [] false "" =
        "if (false) \x7b\n" ++ b0 ++ "\x7d\n")
    ∧ (∀ st : GenSt, math_arithmetic "ADD" none none st =
        Except.ok (("0 + 0", ORDER_ADDITIVE), st))
    ∧ (∀ st : GenSt, math_arithmetic "MULTIPLY" none none st =
        Except.ok (("0 * 0", ORDER_MULTIPLICATIVE), st)) := by
  refine ⟨?_, fun st => rfl, fun st => rfl⟩
  intro b0
  simp only [controls_if, ifClauses, Option.getD_none, Option.isSome_none, Bool.or_false,
    Bool.false_eq_true, if_true, if_false, String.empty_append, String.append_empty,
    String.append_assoc]
  rw [append_merge "if (" "false" "if (false" (by decide),
    append_merge "if (false" ") \x7b\n" "if (false) \x7b\n" (by decide),
    show ("\x7d" : String) ++ "\n" = "\x7d\n" from by decide]

/-- Claim C10: CPP.finish returns only the base-finished entry-point
wrapping of the code; the imports-and-definitions string assembled
from the definitions_ registry is computed but never included, so the
result is independent of the registry. -/
theorem C10_finish_drops_definitions :
    (∀ (baseFinish : String → String) (defs : List (String × String)) (code : String),
        finish baseFinish defs code =
          baseFinish ("int main() \x7b\n" ++
            (if code = "" then code else prefixLines code INDENT) ++ INDENT ++
            "return 0;\n\x7d"))
    ∧ (∀ (baseFinish : String → String) (defs1 defs2 : List (String × String))
        (code : String),
        finish baseFinish defs1 code = finish baseFinish defs2 code) :=
  ⟨fun _ _ _ => rfl, fun _ _ _ _ => rfl⟩
